import Mathlib

/-!
Verification of `src/pwrsuite.py`, a Streamlit + SQLite employee/project/timesheet
management application.  The embedding models the SQLite layer shallowly:

* a table is a schema (column names, primary-key column, autoincrement counter)
  together with a list of rows, a row being an association list from column name
  to a dynamically typed SQLite value;
* a parameterized SQL statement is a Lean function on tables that performs the
  same prepare-time checks SQLite performs (unknown target column, value count
  vs. column count, binding count vs. placeholder count) and returns
  `Except SqlError` — the Python `sqlite3` module surfaces these as
  `OperationalError` / `ProgrammingError` exceptions;
* the Streamlit session dictionary `st.session_state` is an association list
  from string keys to Python-like values.
-/

namespace PwrSuite

/-- A dynamically typed SQLite value (the subset the application stores):
`NULL`, `INTEGER`, or `TEXT`.  Dates reach the database as their ISO text
rendering, so they are `text` values here. -/
inductive Val where
  | null : Val
  | int (i : Int) : Val
  | text (s : String) : Val
deriving DecidableEq, Repr

/-- A row: an association list from column name to value. -/
abbrev Row := List (String × Val)

/-- Value of column `col` in row `r` (`none` when the row has no such column). -/
def rowGet (r : Row) (col : String) : Option Val :=
  (r.find? (fun p => p.1 == col)).map (fun p => p.2)

/-- Errors raised by the `sqlite3` layer for the statements this application
issues.  `noSuchColumn` covers both the `table X has no column named C` insert
error and the `no such column: C` error from UPDATE / SELECT;
`valuesColumns v c` is SQLite's prepare-time `v values for c columns`;
`bindings p g` is `sqlite3`'s `Incorrect number of bindings supplied` with `p`
placeholders and `g` given parameters. -/
inductive SqlError where
  | noSuchColumn (table col : String) : SqlError
  | valuesColumns (values columns : Nat) : SqlError
  | bindings (placeholders given : Nat) : SqlError
deriving DecidableEq, Repr

/-- A SQLite table: name, schema columns in order, the INTEGER PRIMARY KEY
AUTOINCREMENT column, the stored rows, and the next autoincrement value. -/
structure Table where
  name : String
  columns : List String
  pk : String
  rows : List Row
  nextId : Int
deriving DecidableEq, Repr

/-- The row INSERT stores: every schema column in order; a column assigned by
the statement takes its bound value, the omitted primary key takes the
autoincrement value, and every other omitted column is NULL. -/
def mkInsertRow (t : Table) (assigned : List (String × Val)) : Row :=
  t.columns.map (fun col =>
    match assigned.find? (fun a => a.1 == col) with
    | some a => (col, a.2)
    | none => (col, if col == t.pk then Val.int t.nextId else Val.null))

/-- `INSERT INTO t (cols...) VALUES (ph placeholders)` executed with bind
parameters `params`, modelling SQLite's checks in prepare/bind order:
1. every target column must exist in the table (`table t has no column named c`);
2. the placeholder count must equal the target column count (`v values for c columns`);
3. the bind parameter count must equal the placeholder count (`Incorrect number of bindings`). -/
def insertStmt (t : Table) (cols : List String) (ph : Nat) (params : List Val) :
    Except SqlError Table :=
  match cols.find? (fun col => !(t.columns.contains col)) with
  | some col => .error (.noSuchColumn t.name col)
  | none =>
    if ph ≠ cols.length then .error (.valuesColumns ph cols.length)
    else if params.length ≠ ph then .error (.bindings ph params.length)
    else
      .ok { t with rows := t.rows ++ [mkInsertRow t (cols.zip params)],
                   nextId := t.nextId + 1 }

/-- `UPDATE t SET c1 = ?, ..., cn = ? WHERE wcol = ?` with bind parameters
`params` (n + 1 placeholders).  Prepare rejects any unknown column
(`no such column: c`); then the binding count must match; then every row whose
`wcol` value equals the last parameter gets each `ci` set to the i-th
parameter. -/
def updateStmt (t : Table) (setCols : List String) (wcol : String) (params : List Val) :
    Except SqlError Table :=
  match (setCols ++ [wcol]).find? (fun col => !(t.columns.contains col)) with
  | some col => .error (.noSuchColumn t.name col)
  | none =>
    if params.length ≠ setCols.length + 1 then
      .error (.bindings (setCols.length + 1) params.length)
    else
      let assigned := setCols.zip params
      let wval := params.getLastD Val.null
      let setRow : Row → Row := fun r => r.map (fun p =>
        match assigned.find? (fun a => a.1 == p.1) with
        | some a => (p.1, a.2)
        | none => p)
      .ok { t with rows := t.rows.map (fun r =>
        if rowGet r wcol == some wval then setRow r else r) }

/-- `DELETE FROM t WHERE wcol = ?` with bind parameter `v`: prepare rejects an
unknown column, otherwise every row whose `wcol` value equals `v` is removed. -/
def deleteStmt (t : Table) (wcol : String) (v : Val) : Except SqlError Table :=
  if !(t.columns.contains wcol) then .error (.noSuchColumn t.name wcol)
  else .ok { t with rows := t.rows.filter (fun r => !(rowGet r wcol == some v)) }

/-! ### The four table schemas created at startup (lines 11-48) -/

/-- `employees` as created by lines 11-17: the FOREIGN KEY clause adds no
column, so the schema is exactly these four columns. -/
def freshEmployees : Table :=
  { name := "employees"
    columns := ["employee_id", "employee_name", "employee_type", "rate"]
    pk := "employee_id"
    rows := []
    nextId := 1 }

/-- `projects` as created by lines 19-25. -/
def freshProjects : Table :=
  { name := "projects"
    columns := ["project_id", "project_name", "project_location", "start_date", "end_date"]
    pk := "project_id"
    rows := []
    nextId := 1 }

/-- `timesheets` as created by lines 27-39. -/
def freshTimesheets : Table :=
  { name := "timesheets"
    columns := ["id", "employee_id", "project_id", "date", "present_flag",
                "overtime_hours", "comments"]
    pk := "id"
    rows := []
    nextId := 1 }

/-- `users` as created by lines 41-48 (`username` carries a UNIQUE constraint). -/
def freshUsers : Table :=
  { name := "users"
    columns := ["id", "username", "password", "role"]
    pk := "id"
    rows := []
    nextId := 1 }

/-! ### `hash_password` (lines 59-61): SHA-256 hex digest of the UTF-8 password -/

/-- Truncate to a 32-bit word. -/
def w32 (n : Nat) : Nat := n % 4294967296

/-- 32-bit right rotation. -/
def rotr32 (x n : Nat) : Nat := w32 ((x >>> n) ||| (x <<< (32 - n)))

/-- SHA-256 `Ch` function (`not x` is XOR with the all-ones 32-bit word). -/
def shaCh (x y z : Nat) : Nat := (x &&& y) ^^^ ((x ^^^ 4294967295) &&& z)

/-- SHA-256 `Maj` function. -/
def shaMaj (x y z : Nat) : Nat := (x &&& y) ^^^ (x &&& z) ^^^ (y &&& z)

/-- SHA-256 Σ0. -/
def bigSigma0 (x : Nat) : Nat := rotr32 x 2 ^^^ rotr32 x 13 ^^^ rotr32 x 22

/-- SHA-256 Σ1. -/
def bigSigma1 (x : Nat) : Nat := rotr32 x 6 ^^^ rotr32 x 11 ^^^ rotr32 x 25

/-- SHA-256 σ0. -/
def smallSigma0 (x : Nat) : Nat := rotr32 x 7 ^^^ rotr32 x 18 ^^^ (x >>> 3)

/-- SHA-256 σ1. -/
def smallSigma1 (x : Nat) : Nat := rotr32 x 17 ^^^ rotr32 x 19 ^^^ (x >>> 10)

/-- The 64 SHA-256 round constants. -/
def shaK : List Nat :=
  [1116352408, 1899447441, 3049323471, 3921009573, 961987163,
   1508970993, 2453635748, 2870763221, 3624381080, 310598401,
   607225278, 1426881987, 1925078388, 2162078206, 2614888103,
   3248222580, 3835390401, 4022224774, 264347078, 604807628,
   770255983, 1249150122, 1555081692, 1996064986, 2554220882,
   2821834349, 2952996808, 3210313671, 3336571891, 3584528711,
   113926993, 338241895, 666307205, 773529912, 1294757372,
   1396182291, 1695183700, 1986661051, 2177026350, 2456956037,
   2730485921, 2820302411, 3259730800, 3345764771, 3516065817,
   3600352804, 4094571909, 275423344, 430227734, 506948616,
   659060556, 883997877, 958139571, 1322822218, 1537002063,
   1747873779, 1955562222, 2024104815, 2227730452, 2361852424,
   2428436474, 2756734187, 3204031479, 3329325298]

/-- The SHA-256 initial hash state. -/
def shaH0 : List Nat :=
  [1779033703, 3144134277, 1013904242, 2773480762,
   1359893119, 2600822924, 528734635, 1541459225]

/-- UTF-8 encoding of one code point (Python's `str.encode()` is UTF-8). -/
def utf8Bytes (cp : Nat) : List Nat :=
  if cp < 128 then [cp]
  else if cp < 2048 then [192 + cp / 64, 128 + cp % 64]
  else if cp < 65536 then [224 + cp / 4096, 128 + cp / 64 % 64, 128 + cp % 64]
  else [240 + cp / 262144, 128 + cp / 4096 % 64, 128 + cp / 64 % 64, 128 + cp % 64]

/-- UTF-8 bytes of a string. -/
def strBytes (s : String) : List Nat :=
  s.data.foldr (fun ch acc => utf8Bytes ch.toNat ++ acc) []

/-- Big-endian 8-byte rendering of a 64-bit length. -/
def be64 (n : Nat) : List Nat :=
  [n >>> 56 % 256, n >>> 48 % 256, n >>> 40 % 256, n >>> 32 % 256,
   n >>> 24 % 256, n >>> 16 % 256, n >>> 8 % 256, n % 256]

/-- SHA-256 padding: append `0x80`, zero bytes to 56 mod 64, then the bit
length as 8 big-endian bytes. -/
def shaPad (msg : List Nat) : List Nat :=
  let L := msg.length
  msg ++ [128] ++ List.replicate ((120 - (L + 1) % 64) % 64) 0 ++ be64 (8 * L)

/-- Group bytes into big-endian 32-bit words. -/
def bytesToWords : List Nat → List Nat
  | a :: b :: ch :: d :: rest => (((a * 256 + b) * 256 + ch) * 256 + d) :: bytesToWords rest
  | _ => []

/-- Extend the 16 message words to the 64-entry SHA-256 message schedule. -/
def extendSchedule (w : List Nat) : List Nat :=
  (List.range 48).foldl (fun acc _ =>
    let n := acc.length
    acc ++ [w32 (acc.getD (n - 16) 0 + smallSigma0 (acc.getD (n - 15) 0)
                  + acc.getD (n - 7) 0 + smallSigma1 (acc.getD (n - 2) 0))]) w

/-- One SHA-256 compression round on the state `[a, b, c, d, e, f, g, h]`. -/
def shaRound (st : List Nat) (k w : Nat) : List Nat :=
  match st with
  | [a, b, c, d, e, f, g, h] =>
    let t1 := w32 (h + bigSigma1 e + shaCh e f g + k + w)
    let t2 := w32 (bigSigma0 a + shaMaj a b c)
    [w32 (t1 + t2), a, b, c, w32 (d + t1), e, f, g]
  | other => other

/-- Compress one 64-byte block into the hash state. -/
def compressBlock (h : List Nat) (block : List Nat) : List Nat :=
  let ws := extendSchedule (bytesToWords block)
  let st := (shaK.zip ws).foldl (fun s kw => shaRound s kw.1 kw.2) h
  (h.zip st).map (fun p => w32 (p.1 + p.2))

/-- Fold the compression over the 64-byte blocks of the padded message; the
fuel argument (instantiated with the message length, an upper bound on the
block count) keeps the recursion structural. -/
def shaBlocksAux : Nat → List Nat → List Nat → List Nat
  | 0, h, _ => h
  | _ + 1, h, [] => h
  | fuel + 1, h, msg => shaBlocksAux fuel (compressBlock h (msg.take 64)) (msg.drop 64)

/-- Lowercase hex digit. -/
def hexDigit (n : Nat) : Char :=
  if n < 10 then Char.ofNat (48 + n) else Char.ofNat (87 + n)

/-- Eight hex digits of a 32-bit word. -/
def wordHex (n : Nat) : List Char :=
  [hexDigit (n >>> 28 % 16), hexDigit (n >>> 24 % 16), hexDigit (n >>> 20 % 16),
   hexDigit (n >>> 16 % 16), hexDigit (n >>> 12 % 16), hexDigit (n >>> 8 % 16),
   hexDigit (n >>> 4 % 16), hexDigit (n % 16)]

/-- `hashlib.sha256(s.encode()).hexdigest()`. -/
def sha256hex (s : String) : String :=
  let padded := shaPad (strBytes s)
  let digest := shaBlocksAux padded.length shaH0 padded
  String.mk (digest.foldr (fun w acc => wordHex w ++ acc) [])

/-- Embeds `hash_password` (lines 59-61): SHA-256 hex digest of the password. -/
def hash_password (password : String) : String := sha256hex password

/-! ### Authentication (lines 64-68) -/

/-- Embeds `authenticate_user` (lines 64-68).  Line 66 computes
`hashed_password = hash_password(password)` but the value is never used: the
query on line 67, `SELECT * FROM users WHERE username = ? AND password = ?`,
is bound to the raw `(username, password)` pair, and `.fetchone()` yields the
first matching row or `None`. -/
def authenticate_user (users : Table) (username password : String) : Option Row :=
  let _hashed_password := hash_password password
  users.rows.find? (fun r =>
    rowGet r "username" == some (Val.text username)
      && rowGet r "password" == some (Val.text password))

/-- The seed row inserted by line 53 into a fresh `users` table. -/
def seedRow : Row :=
  [("id", Val.int 1), ("username", Val.text "admin"),
   ("password", Val.text "admin123"), ("role", Val.text "admin")]

/-- The `users` table right after the first startup on an empty database. -/
def seededUsers : Table :=
  { freshUsers with rows := [seedRow], nextId := 2 }

/-! ### Streamlit session state and the login/logout/render flow -/

/-- A Python value stored in `st.session_state` by this application:
a boolean, a string, or `None`. -/
inductive SVal where
  | b (x : Bool) : SVal
  | s (x : String) : SVal
  | pynone : SVal
deriving DecidableEq, Repr

/-- The `st.session_state` dictionary, keyed by string. -/
abbrev Session := List (String × SVal)

/-- Dictionary lookup. -/
def sget (st : Session) (k : String) : Option SVal :=
  (st.find? (fun p => p.1 == k)).map (fun p => p.2)

/-- Dictionary assignment: overwrite the existing entry or append a new one. -/
def sset (st : Session) (k : String) (v : SVal) : Session :=
  if st.any (fun p => p.1 == k) then
    st.map (fun p => if p.1 == k then (k, v) else p)
  else st ++ [(k, v)]

/-- Embeds lines 72-74: on each script run, if `"logged_in"` is not yet a key
of the session, set `logged_in := False` and `username := None`. -/
def initSessionState (st : Session) : Session :=
  if (sget st "logged_in").isSome then st
  else sset (sset st "logged_in" (SVal.b false)) "username" SVal.pynone

/-- Embeds lines 90-91: on successful authentication the login handler sets
`logged_in := True` and `username := <submitted username>` — and nothing
else; in particular no `"role"` key is ever written. -/
def loginSuccess (st : Session) (username : String) : Session :=
  sset (sset st "logged_in" (SVal.b true)) "username" (SVal.s username)

/-- Embeds lines 179-180: the logout button sets `logged_in := False` and
`username := None`. -/
def logoutClick (st : Session) : Session :=
  sset (sset st "logged_in" (SVal.b false)) "username" SVal.pynone

/-- Embeds line 184: `main_dashboard` always calls
`st.tabs(["Home", "Manage Employees", "Manage Projects", "Timesheet",
"Generate Reports"])` — the tab list does not depend on the session (and the
session stores no role to branch on). -/
def main_dashboard_tabs (_st : Session) : List String :=
  ["Home", "Manage Employees", "Manage Projects", "Timesheet", "Generate Reports"]

/-- Python truthiness of the session values this application stores. -/
def truthyV : SVal → Bool
  | SVal.b x => x
  | SVal.s x => !(x == "")
  | SVal.pynone => false

/-- The two top-level views the script can render. -/
inductive View where
  | loginPage : View
  | dashboard : View
deriving DecidableEq, Repr

/-- Embeds lines 280-283: `if not st.session_state["logged_in"]: login()
else: main_dashboard()`.  Reading a missing key would raise `KeyError`
(`none` here); lines 72-74 guarantee the key exists by this point. -/
def appGate (st : Session) : Option View :=
  match sget st "logged_in" with
  | none => none
  | some v => some (if truthyV v then View.dashboard else View.loginPage)

/-- One script execution: session initialization (lines 72-74) followed by the
login/dashboard gate (lines 280-283); returns the resulting session and the
rendered view. -/
def runScript (st : Session) : Session × Option View :=
  let st1 := initSessionState st
  (st1, appGate st1)

/-! ### Entity CRUD operations -/

/-- Embeds `add_employee` (lines 99-101): `INSERT INTO employees
(employee_name, employee_type, rate, project_id) VALUES (?, ?, ?, ?)`.
The `employees` table has no `project_id` column, so SQLite rejects the
statement at prepare time. -/
def add_employee (t : Table) (employee_name employee_type rate project_id : Val) :
    Except SqlError Table :=
  insertStmt t ["employee_name", "employee_type", "rate", "project_id"] 4
    [employee_name, employee_type, rate, project_id]

/-- Embeds `update_employee` (lines 103-105): `UPDATE employees SET
employee_name = ?, employee_type = ?, rate = ?, project_id = ? WHERE
employee_id = ?` bound to the tuple `(employee_id, employee_name,
employee_type, rate, project_id)` — note the bind order mismatch in the
source: the first placeholder (employee_name) receives `employee_id`, and the
WHERE placeholder receives `project_id`.  The statement is rejected at
prepare time anyway: `employees` has no `project_id` column. -/
def update_employee (t : Table) (employee_id employee_name employee_type rate project_id : Val) :
    Except SqlError Table :=
  updateStmt t ["employee_name", "employee_type", "rate", "project_id"] "employee_id"
    [employee_id, employee_name, employee_type, rate, project_id]

/-- Embeds `delete_employee` (lines 107-109): `DELETE FROM employees WHERE
employee_id = ?`. -/
def delete_employee (t : Table) (employee_id : Val) : Except SqlError Table :=
  deleteStmt t "employee_id" employee_id

/-- Embeds `add_project` (lines 111-113): `INSERT INTO projects
(project_name, project_location, start_date, end_date) VALUES (?, ?, ?, ?)`. -/
def add_project (t : Table) (project_name project_location start_date end_date : Val) :
    Except SqlError Table :=
  insertStmt t ["project_name", "project_location", "start_date", "end_date"] 4
    [project_name, project_location, start_date, end_date]

/-- Embeds `fetch_employees` (lines 115-116): `SELECT * FROM employees`. -/
def fetch_employees (t : Table) : List Row := t.rows

/-- Embeds `fetch_projects` (lines 147-148): `SELECT * FROM projects`. -/
def fetch_projects (t : Table) : List Row := t.rows

/-- Embeds `add_timesheet` (lines 150-155): the INSERT names six columns
`(employee_id, project_id, date, present_flag, overtime_hours, comments)` but
supplies only five placeholders `(?, ?, ?, ?, ?)`, so SQLite rejects the
statement at prepare time with `5 values for 6 columns`. -/
def add_timesheet (t : Table)
    (employee_id project_id date present_flag overtime_hours comments : Val) :
    Except SqlError Table :=
  insertStmt t ["employee_id", "project_id", "date", "present_flag",
                "overtime_hours", "comments"] 5
    [employee_id, project_id, date, present_flag, overtime_hours, comments]

/-- SQL equality for the join condition: comparisons against NULL are not
true. -/
def valEqSql : Val → Val → Bool
  | Val.null, _ => false
  | _, Val.null => false
  | a, b => a == b

/-- Embeds `fetch_timesheets` (lines 157-163): `SELECT t.id, e.employee_name
AS employee, p.project_name AS project, t.date, t.hours_worked, t.description
FROM timesheets t JOIN employees e ON t.employee_id = e.id JOIN projects p ON
t.project_id = p.id`.  Prepare resolves every referenced column against its
table and rejects the first missing one; with the schemas of lines 11-39 the
references `t.hours_worked`, `t.description`, `e.id` and `p.id` do not exist.
The success branch performs the double join and builds the denormalized
rows. -/
def fetch_timesheets (ts emp proj : Table) : Except SqlError (List Row) :=
  let refs : List (String × Table) :=
    [("id", ts), ("employee_name", emp), ("project_name", proj), ("date", ts),
     ("hours_worked", ts), ("description", ts), ("employee_id", ts), ("id", emp),
     ("project_id", ts), ("id", proj)]
  match refs.find? (fun rc => !(rc.2.columns.contains rc.1)) with
  | some rc => .error (.noSuchColumn rc.2.name rc.1)
  | none => .ok (ts.rows.foldr (fun t acc =>
      (emp.rows.filter (fun e =>
        match rowGet t "employee_id", rowGet e "id" with
        | some a, some b => valEqSql a b
        | _, _ => false)).foldr (fun e acc2 =>
        (proj.rows.filter (fun p =>
          match rowGet t "project_id", rowGet p "id" with
          | some a, some b => valEqSql a b
          | _, _ => false)).foldr (fun p acc3 =>
          [("id", (rowGet t "id").getD Val.null),
           ("employee", (rowGet e "employee_name").getD Val.null),
           ("project", (rowGet p "project_name").getD Val.null),
           ("date", (rowGet t "date").getD Val.null),
           ("hours_worked", (rowGet t "hours_worked").getD Val.null),
           ("description", (rowGet t "description").getD Val.null)] :: acc3) acc2) acc) [])

/-- A `sqlite3.Error` raised by the database engine while executing a query. -/
structure DbError where
  msg : String
deriving DecidableEq, Repr

/-- Embeds `fetch_projects_ids` (lines 123-145).  The argument is the outcome
of the engine executing `SELECT project_id FROM projects` on the cursor:
`.error e` when the engine raises `sqlite3.Error` (caught on line 143, logged,
and replaced by `set()`), `.ok rows` otherwise.  `c.fetchone()` (line 136)
yields only the FIRST result row; `set(result)` turns that single row tuple
into a set, and `None` becomes `set()`. -/
def fetch_projects_ids (exec : Except DbError (List (List Val))) : Finset Val :=
  match exec with
  | .error _ => ∅
  | .ok rows =>
    match rows.head? with
    | some row => row.toFinset
    | none => ∅

/-- The result rows of `SELECT project_id FROM projects`: one single-column
row per stored project row. -/
def selectProjectIds (proj : Table) : List (List Val) :=
  proj.rows.map (fun r => [(rowGet r "project_id").getD Val.null])

/-! ### Startup: schema creation (lines 11-50) and seeding (lines 53-54) -/

/-- The database file: each of the four tables, present or not yet created. -/
structure Db where
  employees : Option Table
  projects : Option Table
  timesheets : Option Table
  users : Option Table
deriving DecidableEq, Repr

/-- A database file that does not exist yet / is empty. -/
def emptyDb : Db := ⟨none, none, none, none⟩

/-- Embeds line 53: `INSERT OR IGNORE INTO users (username, password, role)
VALUES ('admin', 'admin123', 'admin')`.  `OR IGNORE` drops the insert when it
would violate the UNIQUE constraint on `username`, i.e. when a row with
username `'admin'` already exists. -/
def seedUsers (u : Table) : Except SqlError Table :=
  if u.rows.any (fun r => rowGet r "username" == some (Val.text "admin")) then .ok u
  else insertStmt u ["username", "password", "role"] 3
    [Val.text "admin", Val.text "admin123", Val.text "admin"]

/-- Embeds the module-level startup sequence (lines 11-54): create each of the
four tables if it does not exist, then run the seed insert. -/
def startup (db : Db) : Except SqlError Db :=
  match seedUsers (db.users.getD freshUsers) with
  | .error e => .error e
  | .ok u1 =>
    .ok { employees := some (db.employees.getD freshEmployees)
          projects := some (db.projects.getD freshProjects)
          timesheets := some (db.timesheets.getD freshTimesheets)
          users := some u1 }

/-- `n` consecutive startups (script executions) from the empty database; an
uncaught seed error would abort the script, so it aborts the sequence. -/
def startupN : Nat → Except SqlError Db
  | 0 => .ok emptyDb
  | n + 1 =>
    match startupN n with
    | .error e => .error e
    | .ok db => startup db

/-- Number of seeded default rows (username `'admin'`) in a users table. -/
def adminCount (u : Table) : Nat :=
  (u.rows.filter (fun r => rowGet r "username" == some (Val.text "admin"))).length

/-! ### Helper lemmas about the session dictionary and row lookup -/

theorem sget_cons_pos (p : String × SVal) (rest : Session) (k : String)
    (h : (p.1 == k) = true) : sget (p :: rest) k = some p.2 := by
  unfold sget
  rw [List.find?_cons_of_pos rest h]
  rfl

theorem sget_cons_neg (p : String × SVal) (rest : Session) (k : String)
    (h : (p.1 == k) = false) : sget (p :: rest) k = sget rest k := by
  unfold sget
  rw [List.find?_cons_of_neg rest (by rw [h]; exact Bool.false_ne_true)]

theorem sget_map_overwrite (st : Session) (k : String) (v : SVal)
    (h : st.any (fun p => p.1 == k) = true) :
    sget (st.map (fun p => if p.1 == k then (k, v) else p)) k = some v := by
  induction st with
  | nil => simp at h
  | cons p rest ih =>
    rw [List.map_cons]
    by_cases hp : (p.1 == k) = true
    · rw [if_pos hp]
      exact sget_cons_pos (k, v) _ k (by simp)
    · have hpf : (p.1 == k) = false := Bool.eq_false_iff.mpr hp
      rw [if_neg hp, sget_cons_neg p _ k hpf]
      apply ih
      simpa [hpf] using h

theorem sget_append_single (st : Session) (k : String) (v : SVal)
    (h : st.any (fun p => p.1 == k) = false) :
    sget (st ++ [(k, v)]) k = some v := by
  induction st with
  | nil =>
    rw [List.nil_append]
    exact sget_cons_pos (k, v) [] k (by simp)
  | cons p rest ih =>
    simp only [List.any_cons, Bool.or_eq_false_iff] at h
    rw [List.cons_append, sget_cons_neg p _ k h.1]
    exact ih h.2

/-- Dictionary assignment makes the assigned key read back the new value. -/
theorem sget_sset_self (st : Session) (k : String) (v : SVal) :
    sget (sset st k v) k = some v := by
  unfold sset
  split
  · exact sget_map_overwrite st k v (by assumption)
  · rename_i h
    exact sget_append_single st k v (Bool.eq_false_iff.mpr h)

theorem sget_map_overwrite_ne (st : Session) (k k' : String) (v : SVal)
    (hkk : (k == k') = false) :
    sget (st.map (fun p => if p.1 == k then (k, v) else p)) k' = sget st k' := by
  induction st with
  | nil => rfl
  | cons p rest ih =>
    rw [List.map_cons]
    by_cases hp : (p.1 == k) = true
    · have hp1 : p.1 = k := by simpa using hp
      rw [if_pos hp, sget_cons_neg (k, v) _ k' hkk,
        sget_cons_neg p rest k' (by rw [hp1]; exact hkk)]
      exact ih
    · rw [if_neg hp]
      by_cases hq : (p.1 == k') = true
      · rw [sget_cons_pos p _ k' hq, sget_cons_pos p rest k' hq]
      · have hqf : (p.1 == k') = false := Bool.eq_false_iff.mpr hq
        rw [sget_cons_neg p _ k' hqf, sget_cons_neg p rest k' hqf]
        exact ih

theorem sget_append_single_ne (st : Session) (k k' : String) (v : SVal)
    (hkk : (k == k') = false) :
    sget (st ++ [(k, v)]) k' = sget st k' := by
  induction st with
  | nil =>
    rw [List.nil_append, sget_cons_neg (k, v) [] k' hkk]
  | cons p rest ih =>
    by_cases hq : (p.1 == k') = true
    · rw [List.cons_append, sget_cons_pos p _ k' hq, sget_cons_pos p rest k' hq]
    · have hqf : (p.1 == k') = false := Bool.eq_false_iff.mpr hq
      rw [List.cons_append, sget_cons_neg p _ k' hqf, sget_cons_neg p rest k' hqf]
      exact ih

/-- Dictionary assignment leaves every other key unchanged. -/
theorem sget_sset_ne (st : Session) (k k' : String) (v : SVal) (hne : k ≠ k') :
    sget (sset st k v) k' = sget st k' := by
  have hkk : (k == k') = false := by simpa using hne
  unfold sset
  split
  · exact sget_map_overwrite_ne st k k' v hkk
  · exact sget_append_single_ne st k k' v hkk

theorem rowGet_cons_pos (p : String × Val) (rest : Row) (c : String)
    (h : (p.1 == c) = true) : rowGet (p :: rest) c = some p.2 := by
  unfold rowGet
  rw [List.find?_cons_of_pos rest h]
  rfl

theorem rowGet_cons_neg (p : String × Val) (rest : Row) (c : String)
    (h : (p.1 == c) = false) : rowGet (p :: rest) c = rowGet rest c := by
  unfold rowGet
  rw [List.find?_cons_of_neg rest (by rw [h]; exact Bool.false_ne_true)]

/-- Looking up column `c` in a row built by mapping a column-preserving
function over a column list containing `c`. -/
theorem rowGet_map_diag (cols : List String) (f : String → String × Val)
    (hf : ∀ col, (f col).1 = col) (c : String) (h : c ∈ cols) :
    rowGet (cols.map f) c = some (f c).2 := by
  induction cols with
  | nil => cases h
  | cons a rest ih =>
    rw [List.map_cons]
    by_cases ha : a = c
    · subst ha
      exact rowGet_cons_pos (f a) _ a (by simp [hf a])
    · rw [rowGet_cons_neg (f a) _ c (by simp [hf a, ha])]
      exact ih ((List.mem_cons.mp h).resolve_left (fun hc => ha hc.symm))

/-! ### Lemmas about INSERT, the seed insert, and startup -/

/-- The looked-up value of a statement-assigned column of a freshly inserted
row. -/
theorem rowGet_mkInsertRow (t : Table) (assigned : List (String × Val)) (c : String)
    (hc : c ∈ t.columns) (v : Val)
    (hfind : assigned.find? (fun a => a.1 == c) = some (c, v)) :
    rowGet (mkInsertRow t assigned) c = some v := by
  unfold mkInsertRow
  rw [rowGet_map_diag t.columns
      (fun col => match assigned.find? (fun a => a.1 == col) with
        | some a => (col, a.2)
        | none => (col, if col == t.pk then Val.int t.nextId else Val.null))
      (fun col => by cases hm : assigned.find? (fun a => a.1 == col) <;> simp [hm])
      c hc]
  simp [hfind]

/-- A successful INSERT appends exactly the built row, and certifies that every
target column exists in the schema. -/
theorem insertStmt_ok (t : Table) (cols : List String) (ph : Nat) (params : List Val)
    (t1 : Table) (h : insertStmt t cols ph params = .ok t1) :
    t1 = { t with rows := t.rows ++ [mkInsertRow t (cols.zip params)],
                  nextId := t.nextId + 1 } ∧
    ∀ c ∈ cols, t.columns.contains c = true := by
  unfold insertStmt at h
  cases hfind : cols.find? (fun col => !(t.columns.contains col)) with
  | some col => rw [hfind] at h; cases h
  | none =>
    rw [hfind] at h
    by_cases hv : ph ≠ cols.length
    · rw [if_pos hv] at h; cases h
    · rw [if_neg hv] at h
      by_cases hb : params.length ≠ ph
      · rw [if_pos hb] at h; cases h
      · rw [if_neg hb] at h
        injection h with h1
        refine ⟨h1.symm, ?_⟩
        intro c hc
        have hnc := List.find?_eq_none.mp hfind c hc
        simpa using hnc

/-- After a successful seed insert the users table holds a row with username
`'admin'`. -/
theorem seedUsers_ok_has_admin (u u1 : Table) (h : seedUsers u = .ok u1) :
    u1.rows.any (fun r => rowGet r "username" == some (Val.text "admin")) = true := by
  unfold seedUsers at h
  split at h
  · rename_i hadm
    injection h with h1
    rw [← h1]
    exact hadm
  · rename_i hadm
    obtain ⟨ht1, hcols⟩ := insertStmt_ok u _ _ _ u1 h
    subst ht1
    rw [List.any_append]
    have husername : "username" ∈ u.columns := by
      have hu := hcols "username" (by simp)
      simpa using hu
    have hrow : rowGet (mkInsertRow u (["username", "password", "role"].zip
        [Val.text "admin", Val.text "admin123", Val.text "admin"])) "username" =
        some (Val.text "admin") :=
      rowGet_mkInsertRow u _ "username" husername (Val.text "admin") rfl
    have hone : ([mkInsertRow u (["username", "password", "role"].zip
        [Val.text "admin", Val.text "admin123", Val.text "admin"])].any
        (fun r => rowGet r "username" == some (Val.text "admin"))) = true := by
      simp only [List.any_cons, List.any_nil]
      rw [hrow]
      rfl
    rw [hone, Bool.or_true]

/-- Startup on the result of a successful startup changes nothing. -/
theorem startup_restart (db db1 : Db) (h : startup db = .ok db1) :
    startup db1 = .ok db1 := by
  unfold startup at h
  cases hs : seedUsers (db.users.getD freshUsers) with
  | error e => rw [hs] at h; cases h
  | ok u1 =>
    rw [hs] at h
    injection h with h1
    rw [← h1]
    have hadm := seedUsers_ok_has_admin _ u1 hs
    have hseed : seedUsers u1 = .ok u1 := by
      unfold seedUsers
      rw [if_pos hadm]
    unfold startup
    dsimp only [Option.getD]
    rw [hseed]

/-! ### Parametrized table states (fixed schema, arbitrary contents) -/

/-- The `employees` table with arbitrary stored rows and autoincrement state. -/
def employeesT (rows : List Row) (n : Int) : Table :=
  { freshEmployees with rows := rows, nextId := n }

/-- The `projects` table with arbitrary stored rows and autoincrement state. -/
def projectsT (rows : List Row) (n : Int) : Table :=
  { freshProjects with rows := rows, nextId := n }

/-- The `timesheets` table with arbitrary stored rows and autoincrement state. -/
def timesheetsT (rows : List Row) (n : Int) : Table :=
  { freshTimesheets with rows := rows, nextId := n }

/-- The database right after the first startup on an empty database file. -/
def firstStartupDb : Db :=
  { employees := some freshEmployees
    projects := some freshProjects
    timesheets := some freshTimesheets
    users := some seededUsers }

/-! ### Claim theorems -/

/-- C1: `authenticate_user` returns a row exactly for the (username, password)
pairs stored in the users table, compared in clear text: any returned row is a
stored row whose `username` and `password` columns equal the submitted strings
verbatim; on the seeded table, ('admin', 'admin123') authenticates to the seed
row while ('admin', 'wrong') returns nothing — even though the SHA-256 digest
of 'admin123' differs from the stored clear-text password, showing the hash
helper plays no part in the comparison. -/
theorem authenticate_user_plaintext (users : Table) (un pw : String) :
    ((authenticate_user users un pw).isSome ↔
      ∃ r ∈ users.rows, rowGet r "username" = some (Val.text un) ∧
        rowGet r "password" = some (Val.text pw)) ∧
    (∀ r, authenticate_user users un pw = some r →
      r ∈ users.rows ∧ rowGet r "username" = some (Val.text un) ∧
        rowGet r "password" = some (Val.text pw)) ∧
    authenticate_user seededUsers "admin" "admin123" = some seedRow ∧
    authenticate_user seededUsers "admin" "wrong" = none ∧
    hash_password "admin123" ≠ "admin123" := by
  refine ⟨?_, ?_, by decide, by decide, by decide⟩
  · constructor
    · intro h
      obtain ⟨r, hmem, hr⟩ := List.find?_isSome.mp h
      rw [Bool.and_eq_true, beq_iff_eq, beq_iff_eq] at hr
      exact ⟨r, hmem, hr.1, hr.2⟩
    · rintro ⟨r, hmem, h1, h2⟩
      exact List.find?_isSome.mpr ⟨r, hmem, by rw [Bool.and_eq_true, beq_iff_eq, beq_iff_eq]; exact ⟨h1, h2⟩⟩
  · intro r hr
    have h1 := List.find?_some hr
    have h2 := List.mem_of_find?_eq_some hr
    rw [Bool.and_eq_true, beq_iff_eq, beq_iff_eq] at h1
    exact ⟨h2, h1.1, h1.2⟩

/-- C1 witness: the general theorem applied to the seeded users table and the
pair ('admin', 'admin123'). -/
theorem authenticate_user_plaintext_witness :
    ((authenticate_user seededUsers "admin" "admin123").isSome ↔
      ∃ r ∈ seededUsers.rows, rowGet r "username" = some (Val.text "admin") ∧
        rowGet r "password" = some (Val.text "admin123")) ∧
    (seedRow ∈ seededUsers.rows ∧
      rowGet seedRow "username" = some (Val.text "admin") ∧
      rowGet seedRow "password" = some (Val.text "admin123")) :=
  ⟨(authenticate_user_plaintext seededUsers "admin" "admin123").1,
   (authenticate_user_plaintext seededUsers "admin" "admin123").2.1 seedRow (by decide)⟩

/-- A session that (hypothetically) carries role 'employee'. -/
def roleEmployeeSession : Session :=
  [("logged_in", SVal.b true), ("username", SVal.s "emp"), ("role", SVal.s "employee")]

/-- C2 counterexample: successful authentication stores no role — reading
`"role"` from the session produced by the login handler yields nothing — and
the dashboard tab set is not determined by any role: a session carrying role
'employee' is rendered the full five-tab list including the
employee-management and project-management tabs, the same list as the session
the login handler produces. -/
theorem role_gating_counterexample :
    sget (loginSuccess (initSessionState []) "admin") "role" = none ∧
    main_dashboard_tabs roleEmployeeSession =
      ["Home", "Manage Employees", "Manage Projects", "Timesheet", "Generate Reports"] ∧
    main_dashboard_tabs (loginSuccess (initSessionState []) "admin") =
      main_dashboard_tabs roleEmployeeSession :=
  ⟨by decide, rfl, rfl⟩

/-- C2 (amended): tab rendering is role-independent — `main_dashboard` renders
the same five tabs (Home, Manage Employees, Manage Projects, Timesheet,
Generate Reports) for every session, so admin sessions do see the
employee-management and project-management tabs, employee sessions do see the
timesheet tab, and every authenticated session sees the reports tab, but only
because every session sees every tab; and successful authentication stores
only the logged-in flag and the username, never a role. -/
theorem dashboard_tabs_role_independent : ∀ (st : Session) (u : String),
    main_dashboard_tabs st =
      ["Home", "Manage Employees", "Manage Projects", "Timesheet", "Generate Reports"] ∧
    sget (loginSuccess st u) "logged_in" = some (SVal.b true) ∧
    sget (loginSuccess st u) "username" = some (SVal.s u) ∧
    sget (loginSuccess st u) "role" = sget st "role" := by
  intro st u
  refine ⟨rfl, ?_, ?_, ?_⟩
  · unfold loginSuccess
    rw [sget_sset_ne _ _ _ _ (by decide), sget_sset_self]
  · unfold loginSuccess
    rw [sget_sset_self]
  · unfold loginSuccess
    rw [sget_sset_ne _ _ _ _ (by decide), sget_sset_ne _ _ _ _ (by decide)]

/-- A consistent timesheets table: one entry referencing employee 1 and
project 1. -/
def consistentTimesheets : Table :=
  timesheetsT [[("id", Val.int 1), ("employee_id", Val.int 1),
    ("project_id", Val.int 1), ("date", Val.text "2024-01-01"),
    ("present_flag", Val.int 1), ("overtime_hours", Val.int 0),
    ("comments", Val.text "on site")]] 2

/-- An employees table containing employee 1. -/
def consistentEmployees : Table :=
  employeesT [[("employee_id", Val.int 1), ("employee_name", Val.text "Alice"),
    ("employee_type", Val.text "Mason"), ("rate", Val.int 20)]] 2

/-- A projects table containing project 1. -/
def consistentProjects : Table :=
  projectsT [[("project_id", Val.int 1), ("project_name", Val.text "Alpha"),
    ("project_location", Val.text "Berlin"), ("start_date", Val.text "2024-01-01"),
    ("end_date", Val.text "2024-06-01")]] 2

/-- C3: the add operations do not behave as claimed.  `add_employee` is
rejected on every database state because its INSERT targets the nonexistent
`employees.project_id` column; `add_timesheet` is rejected on every database
state because its INSERT supplies five placeholders for six columns; only the
`add_project` definition succeeds, appending exactly one row carrying the
submitted values (shown on a concrete state). -/
theorem add_operations_reject :
    (∀ (rows : List Row) (n : Int) (v1 v2 v3 v4 : Val),
      add_employee (employeesT rows n) v1 v2 v3 v4 =
        .error (.noSuchColumn "employees" "project_id")) ∧
    (∀ (rows : List Row) (n : Int) (v1 v2 v3 v4 v5 v6 : Val),
      add_timesheet (timesheetsT rows n) v1 v2 v3 v4 v5 v6 =
        .error (.valuesColumns 5 6)) ∧
    add_project freshProjects (Val.text "Alpha") (Val.text "Berlin")
        (Val.text "2024-01-01") (Val.text "2024-06-01") =
      .ok (projectsT [[("project_id", Val.int 1), ("project_name", Val.text "Alpha"),
        ("project_location", Val.text "Berlin"), ("start_date", Val.text "2024-01-01"),
        ("end_date", Val.text "2024-06-01")]] 2) ∧
    fetch_projects (projectsT [[("project_id", Val.int 1), ("project_name", Val.text "Alpha"),
        ("project_location", Val.text "Berlin"), ("start_date", Val.text "2024-01-01"),
        ("end_date", Val.text "2024-06-01")]] 2) =
      [[("project_id", Val.int 1), ("project_name", Val.text "Alpha"),
        ("project_location", Val.text "Berlin"), ("start_date", Val.text "2024-01-01"),
        ("end_date", Val.text "2024-06-01")]] :=
  ⟨fun _ _ _ _ _ _ => rfl, fun _ _ _ _ _ _ _ _ => rfl, rfl, rfl⟩

/-- C4: `update_employee` never updates anything: on every database state the
UPDATE statement is rejected at prepare time because it SETs the nonexistent
`employees.project_id` column (its bind parameters are also shifted by one
position relative to the placeholders, and its UI call site passes only four
of its five arguments). -/
theorem update_employee_rejects :
    ∀ (rows : List Row) (n : Int) (eid v1 v2 v3 v4 : Val),
      update_employee (employeesT rows n) eid v1 v2 v3 v4 =
        .error (.noSuchColumn "employees" "project_id") :=
  fun _ _ _ _ _ _ _ => rfl

/-- C5: `fetch_timesheets` never returns a joined row: on every database state
with the schemas created at startup, the SELECT is rejected because it
references columns that do not exist (`t.hours_worked`, `t.description`,
`e.id`, `p.id`); in particular it fails on a consistent state whose single
timesheet row references an existing employee and project. -/
theorem fetch_timesheets_rejects :
    (∀ (r1 r2 r3 : List Row) (n1 n2 n3 : Int),
      fetch_timesheets (timesheetsT r1 n1) (employeesT r2 n2) (projectsT r3 n3) =
        .error (.noSuchColumn "timesheets" "hours_worked")) ∧
    fetch_timesheets consistentTimesheets consistentEmployees consistentProjects =
      .error (.noSuchColumn "timesheets" "hours_worked") :=
  ⟨fun _ _ _ _ _ _ => rfl, rfl⟩

/-- C7: when the engine raises a database error while executing the
`SELECT project_id FROM projects` query, `fetch_projects_ids` catches it and
returns the empty set — it is a total function into sets, so no error
propagates to the caller. -/
theorem fetch_projects_ids_error_empty :
    ∀ e : DbError, fetch_projects_ids (Except.error e) = ∅ :=
  fun _ => rfl

/-- C6: the logout action sets the session to logged-out and clears the stored
username; the script run on the resulting session renders the login form; and
any script run whose (initialized) session has a false logged-in flag renders
the login form, never the dashboard. -/
theorem logout_clears_and_gates : ∀ st : Session,
    sget (logoutClick st) "logged_in" = some (SVal.b false) ∧
    sget (logoutClick st) "username" = some SVal.pynone ∧
    (runScript (logoutClick st)).2 = some View.loginPage ∧
    (∀ st2 : Session, sget (initSessionState st2) "logged_in" = some (SVal.b false) →
      (runScript st2).2 = some View.loginPage) := by
  intro st
  have h1 : sget (logoutClick st) "logged_in" = some (SVal.b false) := by
    unfold logoutClick
    rw [sget_sset_ne _ _ _ _ (by decide), sget_sset_self]
  have h2 : sget (logoutClick st) "username" = some SVal.pynone := by
    unfold logoutClick
    rw [sget_sset_self]
  have hgate : ∀ st2 : Session,
      sget (initSessionState st2) "logged_in" = some (SVal.b false) →
      (runScript st2).2 = some View.loginPage := by
    intro st2 hst2
    show appGate (initSessionState st2) = some View.loginPage
    unfold appGate
    rw [hst2]
    rfl
  have hinit : initSessionState (logoutClick st) = logoutClick st := by
    unfold initSessionState
    rw [if_pos (by rw [h1]; rfl)]
  exact ⟨h1, h2, hgate (logoutClick st) (by rw [hinit]; exact h1), hgate⟩

/-- C6 witness: the theorem applied to a concrete logged-in session and to the
empty session (whose initialization yields a logged-out state). -/
theorem logout_clears_and_gates_witness :
    (runScript (logoutClick [("logged_in", SVal.b true), ("username", SVal.s "admin")])).2 =
      some View.loginPage ∧
    (runScript []).2 = some View.loginPage :=
  ⟨(logout_clears_and_gates [("logged_in", SVal.b true), ("username", SVal.s "admin")]).2.2.1,
   (logout_clears_and_gates []).2.2.2 [] (by decide)⟩

/-- C8: deleting an employee identifier present in the employees table removes
exactly the rows carrying that identifier: the fetched table afterwards is the
previous row list restricted to the other rows — no fetched row carries the
deleted identifier, and every prior row with a different identifier is still
present verbatim. -/
theorem delete_employee_frame (rows : List Row) (n : Int) (eid : Val)
    (_hmem : ∃ r ∈ rows, rowGet r "employee_id" = some eid) :
    delete_employee (employeesT rows n) eid =
      .ok (employeesT (rows.filter (fun r => !(rowGet r "employee_id" == some eid))) n) ∧
    (∀ r ∈ fetch_employees (employeesT (rows.filter
        (fun r => !(rowGet r "employee_id" == some eid))) n),
      rowGet r "employee_id" ≠ some eid) ∧
    (∀ r ∈ rows, rowGet r "employee_id" ≠ some eid →
      r ∈ fetch_employees (employeesT (rows.filter
        (fun r => !(rowGet r "employee_id" == some eid))) n)) := by
  refine ⟨rfl, ?_, ?_⟩
  · intro r hr
    have hf := (List.mem_filter.mp hr).2
    simpa using hf
  · intro r hr hne
    exact List.mem_filter.mpr ⟨hr, by simpa using hne⟩

/-- A first employee row (identifier 1). -/
def erow1 : Row :=
  [("employee_id", Val.int 1), ("employee_name", Val.text "Alice"),
   ("employee_type", Val.text "Mason"), ("rate", Val.int 20)]

/-- A second employee row (identifier 2). -/
def erow2 : Row :=
  [("employee_id", Val.int 2), ("employee_name", Val.text "Bob"),
   ("employee_type", Val.text "Welder"), ("rate", Val.int 25)]

/-- C8 witness: deleting identifier 1 from a concrete two-row table. -/
theorem delete_employee_frame_witness :
    delete_employee (employeesT [erow1, erow2] 3) (Val.int 1) =
      .ok (employeesT ([erow1, erow2].filter
        (fun r => !(rowGet r "employee_id" == some (Val.int 1)))) 3) ∧
    erow2 ∈ fetch_employees (employeesT ([erow1, erow2].filter
        (fun r => !(rowGet r "employee_id" == some (Val.int 1)))) 3) :=
  ⟨(delete_employee_frame [erow1, erow2] 3 (Val.int 1) ⟨erow1, by decide, by decide⟩).1,
   (delete_employee_frame [erow1, erow2] 3 (Val.int 1) ⟨erow1, by decide, by decide⟩).2.2
     erow2 (by decide) (by decide)⟩

/-- C9: startup is idempotent — a startup on the result of any successful
startup returns that database unchanged — and any positive number of startups
from an empty database yields exactly the first-startup database, whose users
table holds exactly one seeded default row ('admin', 'admin123', 'admin'). -/
theorem startup_idempotent_seeded :
    (∀ db db1, startup db = .ok db1 → startup db1 = .ok db1) ∧
    (∀ n : Nat, startupN (n + 1) = .ok firstStartupDb) ∧
    firstStartupDb.users = some seededUsers ∧
    adminCount seededUsers = 1 := by
  have hfirst : startup emptyDb = .ok firstStartupDb := rfl
  refine ⟨fun db db1 h => startup_restart db db1 h, ?_, rfl, by decide⟩
  intro n
  induction n with
  | zero => exact hfirst
  | succ n ih =>
    show (match startupN (n + 1) with
          | Except.error e => Except.error e
          | Except.ok db => startup db) = Except.ok firstStartupDb
    rw [ih]
    exact startup_restart emptyDb firstStartupDb hfirst

/-- C9 witness: the idempotence conjunct applied to the concrete first
startup. -/
theorem startup_idempotent_seeded_witness :
    startup firstStartupDb = .ok firstStartupDb ∧ startupN 1 = .ok firstStartupDb :=
  ⟨startup_idempotent_seeded.1 emptyDb firstStartupDb rfl,
   startup_idempotent_seeded.2.1 0⟩

/-- C10: the set `fetch_projects_ids` offers to callers never holds more than
one identifier: because the function reads a single row with `fetchone`, the
result on a projects table is empty or exactly the first row's identifier, and
the identifier of any later row that differs from the first row's is omitted. -/
theorem fetch_projects_ids_first_only (rows : List Row) (n : Int) :
    (fetch_projects_ids (Except.ok (selectProjectIds (projectsT rows n)))).card ≤ 1 ∧
    (∀ h t, rows = h :: t →
      fetch_projects_ids (Except.ok (selectProjectIds (projectsT rows n))) =
        {(rowGet h "project_id").getD Val.null}) ∧
    (∀ h t r, rows = h :: t → r ∈ t →
      (rowGet r "project_id").getD Val.null ≠ (rowGet h "project_id").getD Val.null →
      (rowGet r "project_id").getD Val.null ∉
        fetch_projects_ids (Except.ok (selectProjectIds (projectsT rows n)))) := by
  cases rows with
  | nil =>
    refine ⟨by simp [fetch_projects_ids, selectProjectIds, projectsT], ?_, ?_⟩
    · intro h t hcontra
      cases hcontra
    · intro h t r hcontra
      cases hcontra
  | cons h0 t0 =>
    have hE : fetch_projects_ids (Except.ok (selectProjectIds (projectsT (h0 :: t0) n))) =
        {(rowGet h0 "project_id").getD Val.null} := by
      show ([(rowGet h0 "project_id").getD Val.null] : List Val).toFinset = _
      simp
    refine ⟨?_, ?_, ?_⟩
    · rw [hE]
      simp
    · intro h t heq
      injection heq with e1 e2
      subst e1
      subst e2
      exact hE
    · intro h t r heq hrt hne
      injection heq with e1 e2
      subst e1
      subst e2
      rw [hE]
      simp only [Finset.mem_singleton]
      exact hne

/-- A first project row (identifier 1). -/
def prow1 : Row :=
  [("project_id", Val.int 1), ("project_name", Val.text "Alpha"),
   ("project_location", Val.text "Berlin"), ("start_date", Val.text "2024-01-01"),
   ("end_date", Val.text "2024-06-01")]

/-- A second project row (identifier 2). -/
def prow2 : Row :=
  [("project_id", Val.int 2), ("project_name", Val.text "Beta"),
   ("project_location", Val.text "Paris"), ("start_date", Val.text "2024-02-01"),
   ("end_date", Val.text "2024-07-01")]

/-- C10 witness: on a two-project table, the offered set has at most one
element and omits the second project's identifier. -/
theorem fetch_projects_ids_first_only_witness :
    (fetch_projects_ids (Except.ok (selectProjectIds (projectsT [prow1, prow2] 3)))).card ≤ 1 ∧
    (rowGet prow2 "project_id").getD Val.null ∉
      fetch_projects_ids (Except.ok (selectProjectIds (projectsT [prow1, prow2] 3))) :=
  ⟨(fetch_projects_ids_first_only [prow1, prow2] 3).1,
   (fetch_projects_ids_first_only [prow1, prow2] 3).2.2 prow1 [prow2] prow2 rfl
     (by decide) (by decide)⟩

end PwrSuite
